import Mathlib

/-!
Shallow embedding of the Gonk graphics swap chain (src/src/gonk_gfx.rs).

The swap chain state is the mutable part of the Rust struct `GonkNativeWindow`:
a fixed array of 2 buffer slots (`bufs: [Option<*mut GonkNativeWindowBuffer>; 2]`),
a parallel fence array (`fences: [c_int; 2]`), the index of the last queued
slot (`last_idx: i32`, -1 meaning none), plus the configuration fields.
Buffers are identified by their pointer; we model pointers as `Nat` ids.

The external collaborators are oracles:
  - the hw composer device (`prepare`/`set`) is a function from the submitted
    buffer and its acquire fence to the four observable outputs the Rust code
    reads back from the layer list after `prepare` and `set`;
  - the gralloc allocator is a function from (width, height, format, usage)
    to a return code, a handle and a stride.

Every operation that calls libc `close` also returns the list of file
descriptors it passed to `close`, in order, so fence-closing behaviour is
part of the model.
-/

/-- Swap chain state of the Rust struct `GonkNativeWindow`: the two buffer
slots `bufs0`/`bufs1` model `bufs: [Option<_>; 2]`, `fences0`/`fences1` model
`fences: [c_int; 2]`, and the remaining fields are the scalar fields the
swap chain operations read or write. -/
structure GonkNativeWindow where
  width : Int
  height : Int
  format : Int
  usage : Int
  last_fence : Int
  last_idx : Int
  bufs0 : Option Nat
  bufs1 : Option Nat
  fences0 : Int
  fences1 : Int
deriving DecidableEq, Repr

/-- `window.bufs[idx]` for `idx : Fin 2`. -/
def GonkNativeWindow.bufAt (w : GonkNativeWindow) (i : Fin 2) : Option Nat :=
  if i = 0 then w.bufs0 else w.bufs1

/-- `window.fences[idx]` for `idx : Fin 2`. -/
def GonkNativeWindow.fenceAt (w : GonkNativeWindow) (i : Fin 2) : Int :=
  if i = 0 then w.fences0 else w.fences1

/-- `window.bufs[idx] = b`. -/
def GonkNativeWindow.setBuf (w : GonkNativeWindow) (i : Fin 2) (b : Option Nat) :
    GonkNativeWindow :=
  if i = 0 then { w with bufs0 := b } else { w with bufs1 := b }

/-- `window.fences[idx] = f`. -/
def GonkNativeWindow.setFence (w : GonkNativeWindow) (i : Fin 2) (f : Int) :
    GonkNativeWindow :=
  if i = 0 then { w with fences0 := f } else { w with fences1 := f }

/-- The four fields of the `hwc_display_contents` list that the Rust `draw`
reads back after driving the compositor: the status codes of `prepare` and
`set`, the retire fence the compositor wrote into the list, and the release
fence it wrote into layer 1 (the framebuffer-target layer holding the
submitted buffer). -/
structure HwcResult where
  prepare_res : Int
  set_res : Int
  retire_fence_fd : Int
  release_fence_fd : Int
deriving DecidableEq, Repr

/-- Oracle for the external hw composer device: what `prepare` + `set` leave
in the layer list for a given submitted buffer and acquire fence. -/
def HwcFn : Type := Nat → Int → HwcResult

/-- `GonkNativeWindow::draw` (gonk_gfx.rs:583): builds the two-layer list,
calls `prepare` then `set` (their status codes are only logged), closes the
retire fence when it is `>= 0`, and returns layer 1 release fence.
Result: (returned release fence, fds passed to `close`). -/
def GonkNativeWindow.draw (hwc : HwcFn) (buf : Nat) (fence : Int) : Int × List Int :=
  let r := hwc buf fence
  (r.release_fence_fd, if 0 ≤ r.retire_fence_fd then [r.retire_fence_fd] else [])

/-- One iteration of the `dequeue_buffer` scan loop (gonk_gfx.rs:406) at
index `i`: the slot is skipped when `idx == window.last_idx as usize`
(for `idx < 2` the `i32 → usize` cast makes this exactly `(idx : Int) =
last_idx`); otherwise a `Some` slot is taken: the buffer is returned with the
recorded fence, the slot is emptied and its fence reset to -1. -/
def dequeueAt (w : GonkNativeWindow) (i : Fin 2) :
    Option ((Nat × Int) × GonkNativeWindow) :=
  if (i.val : Int) = w.last_idx then none
  else
    match w.bufAt i with
    | some entry => some ((entry, w.fenceAt i), (w.setBuf i none).setFence i (-1))
    | none => none

/-- `dequeue_buffer` (gonk_gfx.rs:393): scans slots 0 then 1, returns the
first hit of `dequeueAt` or -1 (modelled as `none`) with the state unchanged.
Result: (acquired buffer and its prior fence if any, new window state). -/
def dequeue_buffer (w : GonkNativeWindow) :
    Option (Nat × Int) × GonkNativeWindow :=
  match dequeueAt w 0 with
  | some (r, w2) => (some r, w2)
  | none =>
    match dequeueAt w 1 with
    | some (r, w2) => (some r, w2)
    | none => (none, w)

/-- `queue_buffer` (gonk_gfx.rs:427): scans for the first `None` slot; there
it sets `last_idx` to that index, stores the buffer, and records the fence
returned by `draw` for the slot. No empty slot means return -1 (`none`).
Result: (success flag, new window state, fds passed to `close`). -/
def queue_buffer (hwc : HwcFn) (w : GonkNativeWindow) (buf : Nat) (fence : Int) :
    Option Unit × GonkNativeWindow × List Int :=
  match w.bufs0 with
  | none =>
    let dr := GonkNativeWindow.draw hwc buf fence
    (some (), (({ w with last_idx := 0 }).setBuf 0 (some buf)).setFence 0 dr.1, dr.2)
  | some _ =>
    match w.bufs1 with
    | none =>
      let dr := GonkNativeWindow.draw hwc buf fence
      (some (), (({ w with last_idx := 1 }).setBuf 1 (some buf)).setFence 1 dr.1, dr.2)
    | some _ => (none, w, [])

/-- `cancel_buffer` (gonk_gfx.rs:450): scans for the first `None` slot; there
it stores the buffer, records fence -1 for the slot, and closes the passed
fence. `last_idx` is not touched. No empty slot means return -1 (`none`).
Result: (success flag, new window state, fds passed to `close`). -/
def cancel_buffer (w : GonkNativeWindow) (buf : Nat) (fence : Int) :
    Option Unit × GonkNativeWindow × List Int :=
  match w.bufs0 with
  | none =>
    (some (), ({ w with bufs0 := some buf, fences0 := -1 }), [fence])
  | some _ =>
    match w.bufs1 with
    | none =>
      (some (), ({ w with bufs1 := some buf, fences1 := -1 }), [fence])
    | some _ => (none, w, [])

/-- `GonkNativeWindow::new` (gonk_gfx.rs:528): fresh window — `format` 0,
`last_fence` -1, `last_idx` -1, `bufs` zeroed (both `None`),
`fences` `[-1, -1]`. -/
def GonkNativeWindow.new (width height usage : Int) : GonkNativeWindow :=
  { width := width, height := height, format := 0, usage := usage,
    last_fence := -1, last_idx := -1,
    bufs0 := none, bufs1 := none, fences0 := -1, fences1 := -1 }

/-- Output of the gralloc allocator oracle: the return code of
`alloc_device.alloc` plus the handle and stride it writes back. -/
structure AllocResult where
  ret : Int
  handle : Nat
  stride : Int
deriving DecidableEq, Repr

/-- Oracle for the external gralloc allocator:
`alloc(width, height, format, usage)`. -/
def AllocFn : Type := Int → Int → Int → Int → AllocResult

/-- Outcome of a Rust computation that may `panic!` (the failing
`assert!` aborts the process; no value is returned to any caller). -/
inductive PanicOr (α : Type) where
  | ok : α → PanicOr α
  | panicked : String → PanicOr α
deriving DecidableEq, Repr

/-- The Rust struct `GonkNativeWindowBuffer`: the wrapper Box around one
gralloc buffer. `id` stands for the Box pointer identity, `count` is the
external reference count field, and the rest are the `ANativeWindowBuffer`
fields the code sets. -/
structure GonkNativeWindowBuffer where
  id : Nat
  width : Int
  height : Int
  stride : Int
  format : Int
  usage : Int
  handle : Nat
  count : Int
deriving DecidableEq, Repr

/-- `GonkNativeWindowBuffer::new` (gonk_gfx.rs:720): builds the wrapper with
`count` 1, calls the allocator to fill `handle` and `stride`, then
`assert!(ret == 0, "Failed to allocate gralloc buffer!")` — a non-zero
return code panics (aborting the process); it is not returned as an error.
`fresh` stands for the address of the freshly allocated Box. -/
def GonkNativeWindowBuffer.new (alloc : AllocFn) (fresh : Nat)
    (width height format usage : Int) : PanicOr GonkNativeWindowBuffer :=
  let r := alloc width height format usage
  if r.ret = 0 then
    .ok { id := fresh, width := width, height := height, stride := r.stride,
          format := format, usage := usage, handle := r.handle, count := 1 }
  else
    .panicked "Failed to allocate gralloc buffer!"

/-- `GonkNativeWindow::alloc_buffers` (gonk_gfx.rs:688): allocates two fresh
buffers (two distinct Boxes, modelled by the fresh ids 0 and 1) and stores
them in `bufs[0]` and `bufs[1]`. A failing allocation panics inside
`GonkNativeWindowBuffer::new`. -/
def alloc_buffers (alloc : AllocFn) (w : GonkNativeWindow) :
    PanicOr GonkNativeWindow :=
  match GonkNativeWindowBuffer.new alloc 0 w.width w.height w.format w.usage with
  | .panicked m => .panicked m
  | .ok b0 =>
    match GonkNativeWindowBuffer.new alloc 1 w.width w.height w.format w.usage with
    | .panicked m => .panicked m
    | .ok b1 => .ok ((w.setBuf 0 (some b0.id)).setBuf 1 (some b1.id))

/-- `set_format` (gonk_gfx.rs:482): stores the format. -/
def set_format (w : GonkNativeWindow) (format : Int) : GonkNativeWindow :=
  { w with format := format }

/-- `set_usage` (gonk_gfx.rs:473): stores the usage flags and reallocates
both buffers via `alloc_buffers`. -/
def set_usage (alloc : AllocFn) (w : GonkNativeWindow) (usage : Int) :
    PanicOr GonkNativeWindow :=
  alloc_buffers alloc { w with usage := usage }

/-- Configuring a surface: `GonkNativeWindow::new`, then `set_format`, then
`set_usage` (which calls `alloc_buffers`), as the host performs them to
obtain a usable surface. -/
def configure (alloc : AllocFn) (width height format usage : Int) :
    PanicOr GonkNativeWindow :=
  set_usage alloc (set_format (GonkNativeWindow.new width height usage) format) usage

/-- `gnwb_inc_ref` (gonk_gfx.rs:706): `count += 1`. -/
def gnwb_inc_ref (b : GonkNativeWindowBuffer) : GonkNativeWindowBuffer :=
  { b with count := b.count + 1 }

/-- `gnwb_dec_ref` (gonk_gfx.rs:711): `count -= 1`; when the new count is 0
the Box is reconstituted and dropped, destroying the wrapper object
(`none`). The drop runs no `Drop` impl and never calls the gralloc
`alloc_device.free`, so the list of handles freed through the allocator is
`[]` on every path. -/
def gnwb_dec_ref (b : GonkNativeWindowBuffer) :
    Option GonkNativeWindowBuffer × List Nat :=
  let b2 := { b with count := b.count - 1 }
  if b2.count = 0 then (none, []) else (some b2, [])

/-- `n` consecutive `gnwb_inc_ref` calls. -/
def retainN (b : GonkNativeWindowBuffer) : Nat → GonkNativeWindowBuffer
  | 0 => b
  | n + 1 => gnwb_inc_ref (retainN b n)

/-- `n` consecutive `gnwb_dec_ref` calls on a possibly already destroyed
object (`none` stays `none`; the claims only traverse live prefixes). -/
def releaseN (ob : Option GonkNativeWindowBuffer) : Nat → Option GonkNativeWindowBuffer
  | 0 => ob
  | n + 1 =>
    match releaseN ob n with
    | some b => (gnwb_dec_ref b).1
    | none => none

/-- The fence bookkeeping invariant: every empty slot has -1 ("no fence")
recorded in the parallel fence array. -/
def fenceInv (w : GonkNativeWindow) : Prop :=
  (w.bufs0 = none → w.fences0 = -1) ∧ (w.bufs1 = none → w.fences1 = -1)

instance (w : GonkNativeWindow) : Decidable (fenceInv w) :=
  inferInstanceAs (Decidable (And _ _))



/-! ### Helper lemmas about one scan step of `dequeue_buffer` -/

theorem dequeueAt_eq_some {w : GonkNativeWindow} {i : Fin 2} {b : Nat} {f : Int}
    {w2 : GonkNativeWindow} (h : dequeueAt w i = some ((b, f), w2)) :
    (i.val : Int) ≠ w.last_idx ∧ w.bufAt i = some b ∧ f = w.fenceAt i ∧
      w2 = (w.setBuf i none).setFence i (-1) := by
  unfold dequeueAt at h
  split at h
  · simp at h
  · rename_i hne
    split at h
    · rename_i entry heq
      simp only [Option.some.injEq, Prod.mk.injEq] at h
      obtain ⟨⟨hb, hf⟩, hw⟩ := h
      exact ⟨hne, by rw [heq, hb], hf.symm, hw.symm⟩
    · simp at h

theorem dequeueAt_eq_none_iff (w : GonkNativeWindow) (i : Fin 2) :
    dequeueAt w i = none ↔ ((i.val : Int) = w.last_idx ∨ w.bufAt i = none) := by
  unfold dequeueAt
  split
  · rename_i hskip
    simp [hskip]
  · rename_i hne
    split
    · rename_i entry heq
      simp [hne, heq]
    · rename_i heq
      simp [hne, heq]

/-- C1: for every swap chain state (hence along every sequence of well-formed
acquire/submit/release calls from a configured chain), a successful
`dequeue_buffer` returns the buffer of some slot whose index differs from
`last_idx` (the last presented slot is never returned), and that slot is the
first non-empty non-skipped slot in scan order; the slot is emptied, the
fence previously recorded for it is returned, and the recorded fence for the
slot is reset to -1 (none). -/
theorem dequeue_buffer_first_eligible_spec
    (w : GonkNativeWindow) (b : Nat) (f : Int) (w2 : GonkNativeWindow)
    (h : dequeue_buffer w = (some (b, f), w2)) :
    ∃ i : Fin 2,
      (i.val : Int) ≠ w.last_idx ∧
      w.bufAt i = some b ∧
      f = w.fenceAt i ∧
      (∀ j : Fin 2, j < i → (j.val : Int) ≠ w.last_idx → w.bufAt j = none) ∧
      w2 = (w.setBuf i none).setFence i (-1) := by
  unfold dequeue_buffer at h
  cases h0 : dequeueAt w 0 with
  | some rw0 =>
    obtain ⟨⟨b0, f0⟩, wn⟩ := rw0
    rw [h0] at h
    simp only [Prod.mk.injEq, Option.some.injEq] at h
    obtain ⟨⟨hb, hf⟩, hw⟩ := h
    subst hb; subst hf; subst hw
    obtain ⟨hne, hbuf, hfen, hst⟩ := dequeueAt_eq_some h0
    exact ⟨0, hne, hbuf, hfen, fun j hj _ => absurd hj (by simp [Fin.lt_def]), hst⟩
  | none =>
    rw [h0] at h
    cases h1 : dequeueAt w 1 with
    | some rw1 =>
      obtain ⟨⟨b1, f1⟩, wn⟩ := rw1
      rw [h1] at h
      simp only [Prod.mk.injEq, Option.some.injEq] at h
      obtain ⟨⟨hb, hf⟩, hw⟩ := h
      subst hb; subst hf; subst hw
      obtain ⟨hne, hbuf, hfen, hst⟩ := dequeueAt_eq_some h1
      refine ⟨1, hne, hbuf, hfen, fun j hj hjne => ?_, hst⟩
      have hj0 : j = 0 := by
        have := hj
        simp only [Fin.lt_def] at this
        omega
      subst hj0
      rcases (dequeueAt_eq_none_iff w 0).mp h0 with hc | hc
      · exact absurd hc hjne
      · exact hc
    | none =>
      rw [h1] at h
      simp at h

/-- Witness for C1: a concrete acquire on a chain with `last_idx = 0` and both
slots full returns slot 1 (slot 0 is skipped). -/
theorem dequeue_buffer_first_eligible_spec_witness :
    dequeue_buffer
        { width := 480, height := 854, format := 0, usage := 0,
          last_fence := -1, last_idx := 0,
          bufs0 := some 5, bufs1 := some 6, fences0 := 3, fences1 := 4 } =
      (some (6, 4),
       { width := 480, height := 854, format := 0, usage := 0,
         last_fence := -1, last_idx := 0,
         bufs0 := some 5, bufs1 := none, fences0 := 3, fences1 := -1 }) ∧
    ∃ i : Fin 2,
      (i.val : Int) ≠ (0 : Int) ∧
      GonkNativeWindow.bufAt
          { width := 480, height := 854, format := 0, usage := 0,
            last_fence := -1, last_idx := 0,
            bufs0 := some 5, bufs1 := some 6, fences0 := 3, fences1 := 4 } i = some 6 ∧
      (4 : Int) = GonkNativeWindow.fenceAt
          { width := 480, height := 854, format := 0, usage := 0,
            last_fence := -1, last_idx := 0,
            bufs0 := some 5, bufs1 := some 6, fences0 := 3, fences1 := 4 } i :=
  ⟨by decide, by
    obtain ⟨i, h1, h2, h3, _, _⟩ :=
      dequeue_buffer_first_eligible_spec
        { width := 480, height := 854, format := 0, usage := 0,
          last_fence := -1, last_idx := 0,
          bufs0 := some 5, bufs1 := some 6, fences0 := 3, fences1 := 4 }
        6 4
        { width := 480, height := 854, format := 0, usage := 0,
          last_fence := -1, last_idx := 0,
          bufs0 := some 5, bufs1 := none, fences0 := 3, fences1 := -1 }
        (by decide)
    exact ⟨i, h1, h2, h3⟩⟩

/-- `dequeue_buffer` fails exactly when every non-skipped slot is empty
(shared helper). -/
theorem dequeue_fails_iff_eligible_empty (w : GonkNativeWindow) :
    (dequeue_buffer w).1 = none ↔
      ∀ i : Fin 2, (i.val : Int) ≠ w.last_idx → w.bufAt i = none := by
  constructor
  · intro h i hne
    unfold dequeue_buffer at h
    cases h0 : dequeueAt w 0 with
    | some rw0 =>
      obtain ⟨r, wn⟩ := rw0
      rw [h0] at h
      simp at h
    | none =>
      rw [h0] at h
      cases h1 : dequeueAt w 1 with
      | some rw1 =>
        obtain ⟨r, wn⟩ := rw1
        rw [h1] at h
        simp at h
      | none =>
        have e0 := (dequeueAt_eq_none_iff w 0).mp h0
        have e1 := (dequeueAt_eq_none_iff w 1).mp h1
        fin_cases i
        · rcases e0 with hc | hc
          · exact absurd hc hne
          · exact hc
        · rcases e1 with hc | hc
          · exact absurd hc hne
          · exact hc
  · intro hall
    have h0 : dequeueAt w 0 = none := by
      rw [dequeueAt_eq_none_iff]
      by_cases hc : ((0 : Fin 2).val : Int) = w.last_idx
      · exact Or.inl hc
      · exact Or.inr (hall 0 hc)
    have h1 : dequeueAt w 1 = none := by
      rw [dequeueAt_eq_none_iff]
      by_cases hc : ((1 : Fin 2).val : Int) = w.last_idx
      · exact Or.inl hc
      · exact Or.inr (hall 1 hc)
    unfold dequeue_buffer
    rw [h0, h1]

/-- C3: a successful `queue_buffer` stores the buffer in the first empty slot
in scan order, sets `last_idx` to that slot index, and records for that slot
exactly the release fence returned by `draw` (the composition pipeline) for
this submission; it fails (returns -1, the `NoSlotAvailable` case) exactly
when no slot is empty. -/
theorem queue_buffer_spec (hwc : HwcFn) (w : GonkNativeWindow) (b : Nat) (f : Int) :
    (∀ w2 closed, queue_buffer hwc w b f = (some (), w2, closed) →
      ∃ i : Fin 2,
        w.bufAt i = none ∧
        (∀ j : Fin 2, j < i → w.bufAt j ≠ none) ∧
        w2 = (({ w with last_idx := (i.val : Int) }).setBuf i
                (some b)).setFence i (GonkNativeWindow.draw hwc b f).1 ∧
        w2.last_idx = (i.val : Int) ∧
        w2.bufAt i = some b ∧
        w2.fenceAt i = (hwc b f).release_fence_fd) ∧
    ((queue_buffer hwc w b f).1 = none ↔ ∀ i : Fin 2, w.bufAt i ≠ none) := by
  cases hb0 : w.bufs0 with
  | none =>
    constructor
    · intro w2 closed h
      unfold queue_buffer at h
      rw [hb0] at h
      simp only [Prod.mk.injEq, Option.some.injEq] at h
      obtain ⟨-, hw, -⟩ := h
      subst hw
      refine ⟨0, by simp [GonkNativeWindow.bufAt, hb0],
        fun j hj => absurd hj (by simp [Fin.lt_def]), rfl, ?_, ?_, ?_⟩
      · simp [GonkNativeWindow.setBuf, GonkNativeWindow.setFence]
      · simp [GonkNativeWindow.setBuf, GonkNativeWindow.setFence, GonkNativeWindow.bufAt]
      · simp [GonkNativeWindow.setBuf, GonkNativeWindow.setFence,
          GonkNativeWindow.fenceAt, GonkNativeWindow.draw]
    · unfold queue_buffer
      rw [hb0]
      simp only [Option.some_ne_none, false_iff, not_forall]
      exact ⟨0, by simp [GonkNativeWindow.bufAt, hb0]⟩
  | some a0 =>
    cases hb1 : w.bufs1 with
    | none =>
      constructor
      · intro w2 closed h
        unfold queue_buffer at h
        rw [hb0, hb1] at h
        simp only [Prod.mk.injEq, Option.some.injEq] at h
        obtain ⟨-, hw, -⟩ := h
        subst hw
        refine ⟨1, by simp [GonkNativeWindow.bufAt, hb1], fun j hj => ?_,
          rfl, ?_, ?_, ?_⟩
        · have hj0 : j = 0 := by
            simp only [Fin.lt_def] at hj
            omega
          subst hj0
          simp [GonkNativeWindow.bufAt, hb0]
        · simp [GonkNativeWindow.setBuf, GonkNativeWindow.setFence]
        · simp [GonkNativeWindow.setBuf, GonkNativeWindow.setFence, GonkNativeWindow.bufAt]
        · simp [GonkNativeWindow.setBuf, GonkNativeWindow.setFence,
            GonkNativeWindow.fenceAt, GonkNativeWindow.draw]
      · unfold queue_buffer
        rw [hb0, hb1]
        simp only [Option.some_ne_none, false_iff, not_forall]
        exact ⟨1, by simp [GonkNativeWindow.bufAt, hb1]⟩
    | some a1 =>
      constructor
      · intro w2 closed h
        unfold queue_buffer at h
        rw [hb0, hb1] at h
        simp at h
      · unfold queue_buffer
        rw [hb0, hb1]
        simp only [true_iff]
        intro i
        fin_cases i
        · simp [GonkNativeWindow.bufAt, hb0]
        · simp [GonkNativeWindow.bufAt, hb1]

/-- C4: `dequeue_buffer` fails (returns -1, the `NoBufferAvailable` case) if
and only if every slot other than the `last_idx` slot is empty; in
particular an acquire on a chain whose buffers are both already out with the
producer (both slots empty) fails. -/
theorem dequeue_buffer_fails_iff_all_eligible_empty (w : GonkNativeWindow) :
    (dequeue_buffer w).1 = none ↔
      ∀ i : Fin 2, (i.val : Int) ≠ w.last_idx → w.bufAt i = none :=
  dequeue_fails_iff_eligible_empty w

/-- Witness for C3: a concrete submit on a chain with slot 0 empty stores the
buffer in slot 0, with the oracle compositor release fence 9 recorded. -/
theorem queue_buffer_spec_witness :
    ∃ i : Fin 2,
      GonkNativeWindow.bufAt
        { width := 480, height := 854, format := 1, usage := 2,
          last_fence := -1, last_idx := -1,
          bufs0 := none, bufs1 := some 1, fences0 := -1, fences1 := -1 } i = none ∧
      GonkNativeWindow.bufAt
        { width := 480, height := 854, format := 1, usage := 2,
          last_fence := -1, last_idx := 0,
          bufs0 := some 5, bufs1 := some 1, fences0 := 9, fences1 := -1 } i = some 5 ∧
      GonkNativeWindow.fenceAt
        { width := 480, height := 854, format := 1, usage := 2,
          last_fence := -1, last_idx := 0,
          bufs0 := some 5, bufs1 := some 1, fences0 := 9, fences1 := -1 } i = 9 := by
  obtain ⟨i, h1, -, -, -, h5, h6⟩ :=
    (queue_buffer_spec (fun _ _ => HwcResult.mk 0 0 7 9)
      { width := 480, height := 854, format := 1, usage := 2,
        last_fence := -1, last_idx := -1,
        bufs0 := none, bufs1 := some 1, fences0 := -1, fences1 := -1 } 5 3).1
      { width := 480, height := 854, format := 1, usage := 2,
        last_fence := -1, last_idx := 0,
        bufs0 := some 5, bufs1 := some 1, fences0 := 9, fences1 := -1 } [7]
      (by decide)
  exact ⟨i, h1, h5, h6⟩

/-- C5 counterexample: the claim quantifies over every state. At the state
with `last_idx = 0`, slot 0 empty and slot 1 holding buffer 9, a successful
`cancel_buffer` of buffer 5 stores it in slot 0 — the slot `last_idx` points
at — so the canceled buffer is NOT immediately eligible: the very next
acquire skips slot 0 and returns buffer 9, and buffer 5 cannot be returned
while `last_idx` stays 0. (No well-formed call sequence reaches this state;
there the `last_idx` slot is always occupied.) -/
theorem cancel_buffer_not_always_eligible :
    cancel_buffer
        { width := 480, height := 854, format := 0, usage := 0,
          last_fence := -1, last_idx := 0,
          bufs0 := none, bufs1 := some 9, fences0 := -1, fences1 := 4 } 5 7 =
      (some (),
       { width := 480, height := 854, format := 0, usage := 0,
         last_fence := -1, last_idx := 0,
         bufs0 := some 5, bufs1 := some 9, fences0 := -1, fences1 := 4 }, [7]) ∧
    ((0 : Fin 2).val : Int) =
      (GonkNativeWindow.mk 480 854 0 0 (-1) 0 (some 5) (some 9) (-1) 4).last_idx ∧
    (dequeue_buffer
        (GonkNativeWindow.mk 480 854 0 0 (-1) 0 (some 5) (some 9) (-1) 4)).1 =
      some (9, 4) := by
  refine ⟨by decide, by decide, by decide⟩

/-- C5 (amended): a successful `cancel_buffer` stores the buffer in the first
empty slot in scan order with fence -1 ("no fence") recorded for that slot,
closes the passed fence exactly once, and leaves `last_idx` (and the other
slot and fence) unchanged; provided the slot indexed by `last_idx` is
non-empty before the call (true in every state well-formed call sequences
reach), the buffer lands in a slot different from `last_idx` and is
immediately eligible: the next acquire succeeds. -/
theorem cancel_buffer_spec (w : GonkNativeWindow) (b : Nat) (f : Int)
    (w2 : GonkNativeWindow) (closed : List Int)
    (h : cancel_buffer w b f = (some (), w2, closed)) :
    ∃ i : Fin 2,
      w.bufAt i = none ∧
      (∀ j : Fin 2, j < i → w.bufAt j ≠ none) ∧
      w2 = (w.setBuf i (some b)).setFence i (-1) ∧
      w2.bufAt i = some b ∧
      w2.fenceAt i = -1 ∧
      closed = [f] ∧
      w2.last_idx = w.last_idx ∧
      ((∀ k : Fin 2, (k.val : Int) = w.last_idx → w.bufAt k ≠ none) →
        ((i.val : Int) ≠ w.last_idx ∧ (dequeue_buffer w2).1 ≠ none)) := by
  cases hb0 : w.bufs0 with
  | none =>
    unfold cancel_buffer at h
    rw [hb0] at h
    simp only [Prod.mk.injEq, Option.some.injEq] at h
    obtain ⟨-, hw, hc⟩ := h
    subst hw
    refine ⟨0, by simp [GonkNativeWindow.bufAt, hb0],
      fun j hj => absurd hj (by simp [Fin.lt_def]),
      by simp [GonkNativeWindow.setBuf, GonkNativeWindow.setFence],
      by simp [GonkNativeWindow.bufAt],
      by simp [GonkNativeWindow.fenceAt],
      hc.symm, rfl, fun hinv => ?_⟩
    have hne : ((0 : Fin 2).val : Int) ≠ w.last_idx := by
      intro hc0
      exact hinv 0 hc0 (by simp [GonkNativeWindow.bufAt, hb0])
    refine ⟨hne, fun hnone => ?_⟩
    have hall := (dequeue_fails_iff_eligible_empty _).mp hnone
    have := hall 0 (by simpa using hne)
    simp [GonkNativeWindow.bufAt] at this
  | some a0 =>
    cases hb1 : w.bufs1 with
    | none =>
      unfold cancel_buffer at h
      rw [hb0, hb1] at h
      simp only [Prod.mk.injEq, Option.some.injEq] at h
      obtain ⟨-, hw, hc⟩ := h
      subst hw
      refine ⟨1, by simp [GonkNativeWindow.bufAt, hb1], fun j hj => ?_,
        by simp [GonkNativeWindow.setBuf, GonkNativeWindow.setFence, hb0],
        by simp [GonkNativeWindow.bufAt],
        by simp [GonkNativeWindow.fenceAt],
        hc.symm, rfl, fun hinv => ?_⟩
      · have hj0 : j = 0 := by
          simp only [Fin.lt_def] at hj
          omega
        subst hj0
        simp [GonkNativeWindow.bufAt, hb0]
      · have hne : ((1 : Fin 2).val : Int) ≠ w.last_idx := by
          intro hc1
          exact hinv 1 hc1 (by simp [GonkNativeWindow.bufAt, hb1])
        refine ⟨hne, fun hnone => ?_⟩
        have hall := (dequeue_fails_iff_eligible_empty _).mp hnone
        have := hall 1 (by simpa using hne)
        simp [GonkNativeWindow.bufAt] at this
    | some a1 =>
      unfold cancel_buffer at h
      rw [hb0, hb1] at h
      simp at h

/-- Witness for C5 (amended): concrete cancel of buffer 5 with fence 7 on a
chain whose slot 0 is empty and whose `last_idx` slot (slot 1) is occupied. -/
theorem cancel_buffer_spec_witness :
    ∃ i : Fin 2,
      GonkNativeWindow.bufAt
        (GonkNativeWindow.mk 480 854 0 0 (-1) 1 none (some 9) (-1) 4) i = none ∧
      GonkNativeWindow.bufAt
        (GonkNativeWindow.mk 480 854 0 0 (-1) 1 (some 5) (some 9) (-1) 4) i = some 5 ∧
      (i.val : Int) ≠ 1 := by
  obtain ⟨i, h1, -, -, h4, -, -, h7, h8⟩ :=
    cancel_buffer_spec
      (GonkNativeWindow.mk 480 854 0 0 (-1) 1 none (some 9) (-1) 4) 5 7
      (GonkNativeWindow.mk 480 854 0 0 (-1) 1 (some 5) (some 9) (-1) 4) [7]
      (by decide)
  obtain ⟨hne, -⟩ := h8 (by decide)
  exact ⟨i, h1, h4, hne⟩

/-- A successful `configure` yields exactly the fresh state: both slots
freshly allocated (the two fresh buffers 0 and 1), `last_idx = -1`, both
fences -1 (shared helper). -/
theorem configure_ok_state {alloc : AllocFn} {wd ht fmt usg : Int}
    {w : GonkNativeWindow} (h : configure alloc wd ht fmt usg = .ok w) :
    w = { width := wd, height := ht, format := fmt, usage := usg,
          last_fence := -1, last_idx := -1,
          bufs0 := some 0, bufs1 := some 1, fences0 := -1, fences1 := -1 } := by
  by_cases hr : (alloc wd ht fmt usg).ret = 0
  · simp only [configure, set_usage, set_format, GonkNativeWindow.new,
      alloc_buffers, GonkNativeWindowBuffer.new, hr, if_pos] at h
    simp only [GonkNativeWindow.setBuf, PanicOr.ok.injEq] at h
    exact h.symm
  · simp only [configure, set_usage, set_format, GonkNativeWindow.new,
      alloc_buffers, GonkNativeWindowBuffer.new, hr, if_neg] at h
    exact absurd h (by simp)

/-- C2: from a freshly configured surface (both slots freshly allocated with
buffers 0 and 1, `last_idx = -1`, both fences -1), the trace acquire; submit;
acquire; submit; acquire alternates the two physical buffers: the first
acquire returns buffer 0 with fence -1 (none); submit(0, F1) records the
compositor release fence R1 = `(hwc 0 F1).release_fence_fd` for slot 0 and
sets `last_idx = 0`; the second acquire returns buffer 1 (distinct from 0)
with fence -1; submit(1, F2) records R2 and sets `last_idx = 1`; the third
acquire returns buffer 0 with fence R1. -/
theorem configure_then_alternating_trace (alloc : AllocFn) (hwc : HwcFn)
    (fmt usg F1 F2 : Int) (w : GonkNativeWindow)
    (hcfg : configure alloc 480 854 fmt usg = .ok w) :
    (1 : Nat) ≠ 0 ∧
    dequeue_buffer w =
      (some (0, -1),
       GonkNativeWindow.mk 480 854 fmt usg (-1) (-1) none (some 1) (-1) (-1)) ∧
    queue_buffer hwc
        (GonkNativeWindow.mk 480 854 fmt usg (-1) (-1) none (some 1) (-1) (-1)) 0 F1 =
      (some (),
       GonkNativeWindow.mk 480 854 fmt usg (-1) 0 (some 0) (some 1)
         ((hwc 0 F1).release_fence_fd) (-1),
       (GonkNativeWindow.draw hwc 0 F1).2) ∧
    dequeue_buffer
        (GonkNativeWindow.mk 480 854 fmt usg (-1) 0 (some 0) (some 1)
          ((hwc 0 F1).release_fence_fd) (-1)) =
      (some (1, -1),
       GonkNativeWindow.mk 480 854 fmt usg (-1) 0 (some 0) none
         ((hwc 0 F1).release_fence_fd) (-1)) ∧
    queue_buffer hwc
        (GonkNativeWindow.mk 480 854 fmt usg (-1) 0 (some 0) none
          ((hwc 0 F1).release_fence_fd) (-1)) 1 F2 =
      (some (),
       GonkNativeWindow.mk 480 854 fmt usg (-1) 1 (some 0) (some 1)
         ((hwc 0 F1).release_fence_fd) ((hwc 1 F2).release_fence_fd),
       (GonkNativeWindow.draw hwc 1 F2).2) ∧
    dequeue_buffer
        (GonkNativeWindow.mk 480 854 fmt usg (-1) 1 (some 0) (some 1)
          ((hwc 0 F1).release_fence_fd) ((hwc 1 F2).release_fence_fd)) =
      (some (0, (hwc 0 F1).release_fence_fd),
       GonkNativeWindow.mk 480 854 fmt usg (-1) 1 none (some 1)
         (-1) ((hwc 1 F2).release_fence_fd)) := by
  have hw := configure_ok_state hcfg
  subst hw
  exact ⟨one_ne_zero, rfl, rfl, rfl, rfl, rfl⟩

/-- Witness for C2: concrete allocator (always succeeds) and compositor
(release fence = acquire fence + 100), so R1 = 110, R2 = 111; the third
acquire on the resulting state returns buffer 0 with fence 110. -/
theorem configure_then_alternating_trace_witness :
    configure (fun _ _ _ _ => AllocResult.mk 0 3 480) 480 854 42 7 =
      .ok (GonkNativeWindow.mk 480 854 42 7 (-1) (-1) (some 0) (some 1) (-1) (-1)) ∧
    dequeue_buffer
        (GonkNativeWindow.mk 480 854 42 7 (-1) 1 (some 0) (some 1) 110 111) =
      (some (0, 110),
       GonkNativeWindow.mk 480 854 42 7 (-1) 1 none (some 1) (-1) 111) := by
  refine ⟨by decide, ?_⟩
  obtain ⟨-, -, -, -, -, h6⟩ :=
    configure_then_alternating_trace (fun _ _ _ _ => AllocResult.mk 0 3 480)
      (fun _ f => HwcResult.mk 0 0 (-1) (f + 100)) 42 7 10 11
      (GonkNativeWindow.mk 480 854 42 7 (-1) (-1) (some 0) (some 1) (-1) (-1))
      (by decide)
  exact h6

/-- C6: `draw` adds no failure path of its own — its return value is exactly
the release fence the compositor wrote into layer 1 — and the status codes of
`prepare` and `set` are only logged, never branched on: for two compositor
behaviours writing the same fences (so, a failing and a succeeding run of
the same frame), `draw` and `queue_buffer` produce identical results — same
slot contents, same `last_idx`, same recorded fences, same closed fds — so
every subsequent acquire/submit behaves identically to the success path. -/
theorem draw_and_queue_ignore_compositor_status (hwc hwc2 : HwcFn)
    (w : GonkNativeWindow) (b : Nat) (f : Int)
    (hret : (hwc b f).retire_fence_fd = (hwc2 b f).retire_fence_fd)
    (hrel : (hwc b f).release_fence_fd = (hwc2 b f).release_fence_fd) :
    (GonkNativeWindow.draw hwc b f).1 = (hwc b f).release_fence_fd ∧
    GonkNativeWindow.draw hwc b f = GonkNativeWindow.draw hwc2 b f ∧
    queue_buffer hwc w b f = queue_buffer hwc2 w b f := by
  have hd : GonkNativeWindow.draw hwc b f = GonkNativeWindow.draw hwc2 b f := by
    unfold GonkNativeWindow.draw
    dsimp only
    rw [hret, hrel]
  refine ⟨rfl, hd, ?_⟩
  unfold queue_buffer
  rw [hd]

/-- Witness for C6: a compositor run whose `prepare`/`set` fail with -1 gives
the same submit result as a succeeding run with the same fences. -/
theorem draw_and_queue_ignore_compositor_status_witness :
    queue_buffer (fun _ _ => HwcResult.mk (-1) (-1) 8 9)
        (GonkNativeWindow.mk 480 854 0 0 (-1) 1 none (some 1) (-1) (-1)) 0 3 =
      queue_buffer (fun _ _ => HwcResult.mk 0 0 8 9)
        (GonkNativeWindow.mk 480 854 0 0 (-1) 1 none (some 1) (-1) (-1)) 0 3 :=
  (draw_and_queue_ignore_compositor_status
    (fun _ _ => HwcResult.mk (-1) (-1) 8 9) (fun _ _ => HwcResult.mk 0 0 8 9)
    (GonkNativeWindow.mk 480 854 0 0 (-1) 1 none (some 1) (-1) (-1)) 0 3
    (by decide) (by decide)).2.2

/-- C7 counterexample: with an allocator whose `alloc` returns -1, neither
`GonkNativeWindowBuffer::new` nor `configure` returns any reportable
`AllocationFailed` error: the `assert!(ret == 0, ...)` panics, aborting the
process — so "configure reports the failure and the surface cannot be used
until a subsequent successful configure" is false: nothing is reported and
no subsequent configure can run. -/
theorem alloc_failure_panics_counterexample :
    GonkNativeWindowBuffer.new (fun _ _ _ _ => AllocResult.mk (-1) 0 0)
        0 480 854 42 7 =
      .panicked "Failed to allocate gralloc buffer!" ∧
    configure (fun _ _ _ _ => AllocResult.mk (-1) 0 0) 480 854 42 7 =
      .panicked "Failed to allocate gralloc buffer!" :=
  ⟨rfl, rfl⟩

/-- C7 (amended): a non-zero allocator return code is fatal, but as an
assertion panic that aborts the process ("Failed to allocate gralloc
buffer!"), not as a propagated `AllocationFailed` error: `configure` never
completes (no `.ok` state exists and no error value is reported to the
caller); conversely when the allocator returns 0 the configure succeeds
with both slots freshly allocated. -/
theorem alloc_failure_fatal_spec (alloc : AllocFn) (wd ht fmt usg : Int) :
    ((alloc wd ht fmt usg).ret ≠ 0 →
      configure alloc wd ht fmt usg =
        .panicked "Failed to allocate gralloc buffer!") ∧
    ((alloc wd ht fmt usg).ret = 0 →
      configure alloc wd ht fmt usg =
        .ok { width := wd, height := ht, format := fmt, usage := usg,
              last_fence := -1, last_idx := -1,
              bufs0 := some 0, bufs1 := some 1,
              fences0 := -1, fences1 := -1 }) := by
  constructor
  · intro hfail
    simp [configure, set_usage, set_format, GonkNativeWindow.new,
      alloc_buffers, GonkNativeWindowBuffer.new, hfail]
  · intro hok
    simp [configure, set_usage, set_format, GonkNativeWindow.new,
      alloc_buffers, GonkNativeWindowBuffer.new, hok,
      GonkNativeWindow.setBuf]

/-- Witness for C7 (amended): concrete failing and succeeding allocators. -/
theorem alloc_failure_fatal_spec_witness :
    configure (fun _ _ _ _ => AllocResult.mk 1 0 0) 100 200 3 4 =
      .panicked "Failed to allocate gralloc buffer!" ∧
    configure (fun _ _ _ _ => AllocResult.mk 0 11 100) 100 200 3 4 =
      .ok { width := 100, height := 200, format := 3, usage := 4,
            last_fence := -1, last_idx := -1,
            bufs0 := some 0, bufs1 := some 1,
            fences0 := -1, fences1 := -1 } :=
  ⟨(alloc_failure_fatal_spec (fun _ _ _ _ => AllocResult.mk 1 0 0)
      100 200 3 4).1 (by decide),
   (alloc_failure_fatal_spec (fun _ _ _ _ => AllocResult.mk 0 11 100)
      100 200 3 4).2 (by decide)⟩

/-- C8 counterexample: destruction does not free the buffer backing through
the allocator. A fresh buffer (count 1, gralloc handle 7) is destroyed by a
single `gnwb_dec_ref` (the Box is dropped), yet the list of handles freed
through `alloc_device.free` is empty — in particular it does not contain the
handle 7 — refuting "destroyed (its backing freed via the allocator)". -/
theorem gnwb_dec_ref_no_allocator_free :
    gnwb_dec_ref (GonkNativeWindowBuffer.mk 0 480 854 480 1 2 7 1) = (none, []) ∧
    7 ∉ (gnwb_dec_ref (GonkNativeWindowBuffer.mk 0 480 854 480 1 2 7 1)).2 := by
  refine ⟨by decide, by decide⟩

/-- `retainN` only increments the count (shared helper). -/
theorem retainN_eq (b : GonkNativeWindowBuffer) (m : Nat) :
    retainN b m = { b with count := b.count + m } := by
  induction m with
  | zero => simp [retainN]
  | succ k ih =>
    simp only [retainN, gnwb_inc_ref, ih]
    congr 1
    push_cast
    ring

/-- Releasing `j ≤ n` times a live buffer with count `1 + n` keeps it alive
with count `1 + n - j` (shared helper). -/
theorem releaseN_live (b : GonkNativeWindowBuffer) (n : Nat) :
    ∀ j : Nat, j ≤ n →
      releaseN (some { b with count := (1 : Int) + n }) j =
        some { b with count := ((1 : Int) + n) - j } := by
  intro j
  induction j with
  | zero => intro _; simp [releaseN]
  | succ k ih =>
    intro hj
    have hk : k ≤ n := Nat.le_of_succ_le hj
    simp only [releaseN, ih hk]
    simp only [gnwb_dec_ref]
    rw [if_neg (by omega)]
    simp only [Option.some.injEq, GonkNativeWindowBuffer.mk.injEq, true_and]
    push_cast
    ring

/-- C8 (amended): the reference count starts at 1 at creation, `gnwb_inc_ref`
adds one, `gnwb_dec_ref` subtracts one, and the wrapper object is destroyed
(Box dropped) exactly when the count reaches 0: after `n` retains, each of
the first `n` releases leaves the object live with count `1 + n - j`, and the
`(n+1)`-st release destroys it — but destruction never frees the backing
via the allocator: `gnwb_dec_ref` issues no `alloc_device.free` call on any
path. -/
theorem gnwb_refcount_spec (alloc : AllocFn) (fresh : Nat)
    (wd ht fmt usg : Int) (b : GonkNativeWindowBuffer) (n : Nat)
    (hcount : b.count = 1) :
    (∀ b2 : GonkNativeWindowBuffer,
      GonkNativeWindowBuffer.new alloc fresh wd ht fmt usg = .ok b2 →
        b2.count = 1) ∧
    (gnwb_inc_ref b).count = b.count + 1 ∧
    (∀ j : Nat, j ≤ n → ∃ c : GonkNativeWindowBuffer,
      releaseN (some (retainN b n)) j = some c ∧
        c.count = ((1 : Int) + n) - j) ∧
    releaseN (some (retainN b n)) (n + 1) = none ∧
    (∀ c : GonkNativeWindowBuffer, (gnwb_dec_ref c).2 = []) := by
  have hret : retainN b n = { b with count := (1 : Int) + n } := by
    rw [retainN_eq, hcount]
  refine ⟨?_, rfl, ?_, ?_, ?_⟩
  · intro b2 h
    unfold GonkNativeWindowBuffer.new at h
    dsimp only at h
    split at h
    · simp only [PanicOr.ok.injEq] at h
      rw [← h]
    · simp at h
  · intro j hj
    exact ⟨_, by rw [hret]; exact releaseN_live b n j hj, rfl⟩
  · rw [hret]
    simp only [releaseN, releaseN_live b n n le_rfl]
    simp only [gnwb_dec_ref]
    rw [if_pos (by ring)]
  · intro c
    by_cases hc : c.count - 1 = 0 <;> simp [gnwb_dec_ref, hc]

/-- Witness for C8 (amended): a fresh concrete buffer, 2 retains then 3
releases: live with counts 3 and 2, destroyed exactly at the third. -/
theorem gnwb_refcount_spec_witness :
    releaseN (some (retainN (GonkNativeWindowBuffer.mk 0 480 854 480 1 2 7 1) 2)) 3 =
      none ∧
    ∃ c : GonkNativeWindowBuffer,
      releaseN (some (retainN (GonkNativeWindowBuffer.mk 0 480 854 480 1 2 7 1) 2)) 2 =
        some c ∧ c.count = 1 := by
  obtain ⟨-, -, hlive, hdead, -⟩ :=
    gnwb_refcount_spec (fun _ _ _ _ => AllocResult.mk 0 7 480) 0 480 854 1 2
      (GonkNativeWindowBuffer.mk 0 480 854 480 1 2 7 1) 2 (by decide)
  obtain ⟨c, hc, hcnt⟩ := hlive 2 (by decide)
  exact ⟨hdead, c, hc, by rw [hcnt]; decide⟩

/-- A successful `alloc_buffers` fills both slots with the two fresh buffers
and changes nothing else (shared helper). -/
theorem alloc_buffers_ok {alloc : AllocFn} {w w2 : GonkNativeWindow}
    (h : alloc_buffers alloc w = .ok w2) :
    w2 = (w.setBuf 0 (some 0)).setBuf 1 (some 1) := by
  by_cases hr : (alloc w.width w.height w.format w.usage).ret = 0
  · simp only [alloc_buffers, GonkNativeWindowBuffer.new, hr, if_pos,
      PanicOr.ok.injEq] at h
    exact h.symm
  · simp [alloc_buffers, GonkNativeWindowBuffer.new, hr] at h

/-- C9: the "empty slot has no fence" invariant holds in the initial state
produced by `GonkNativeWindow::new`, and is preserved by `alloc_buffers`
(configure), `dequeue_buffer` (which resets the fence to -1 when it empties
a slot), `queue_buffer` and `cancel_buffer` (which only ever fill empty
slots). -/
theorem fence_inv_preserved (alloc : AllocFn) (hwc : HwcFn)
    (wd ht usg f : Int) (b : Nat) (w w2 : GonkNativeWindow) :
    fenceInv (GonkNativeWindow.new wd ht usg) ∧
    (fenceInv w → alloc_buffers alloc w = .ok w2 → fenceInv w2) ∧
    (fenceInv w → fenceInv (dequeue_buffer w).2) ∧
    (fenceInv w → fenceInv (queue_buffer hwc w b f).2.1) ∧
    (fenceInv w → fenceInv (cancel_buffer w b f).2.1) := by
  refine ⟨⟨fun _ => rfl, fun _ => rfl⟩, ?_, ?_, ?_, ?_⟩
  · intro _ h
    rw [alloc_buffers_ok h]
    exact ⟨fun h0 => (nomatch h0), fun h1 => (nomatch h1)⟩
  · intro hw
    unfold dequeue_buffer
    cases h0 : dequeueAt w 0 with
    | some rw0 =>
      obtain ⟨⟨b0, f0⟩, wn⟩ := rw0
      obtain ⟨-, -, -, hst⟩ := dequeueAt_eq_some h0
      rw [hst]
      exact ⟨fun _ => rfl, hw.2⟩
    | none =>
      cases h1 : dequeueAt w 1 with
      | some rw1 =>
        obtain ⟨⟨b1, f1⟩, wn⟩ := rw1
        obtain ⟨-, -, -, hst⟩ := dequeueAt_eq_some h1
        rw [hst]
        exact ⟨hw.1, fun _ => rfl⟩
      | none => exact hw
  · intro hw
    cases hb0 : w.bufs0 with
    | none =>
      simp only [queue_buffer, hb0]
      exact ⟨fun h0 => (nomatch h0), hw.2⟩
    | some a0 =>
      cases hb1 : w.bufs1 with
      | none =>
        simp only [queue_buffer, hb0, hb1]
        exact ⟨fun h0 => (nomatch h0), fun h1 => (nomatch h1)⟩
      | some a1 =>
        simp only [queue_buffer, hb0, hb1]
        exact hw
  · intro hw
    cases hb0 : w.bufs0 with
    | none =>
      simp only [cancel_buffer, hb0]
      exact ⟨fun h0 => (nomatch h0), hw.2⟩
    | some a0 =>
      cases hb1 : w.bufs1 with
      | none =>
        simp only [cancel_buffer, hb0, hb1]
        exact ⟨fun h0 => (nomatch h0), fun h1 => (nomatch h1)⟩
      | some a1 =>
        simp only [cancel_buffer, hb0, hb1]
        exact hw

/-- Witness for C9: the invariant holds on a concrete state and is carried
through a concrete acquire, submit and release. -/
theorem fence_inv_preserved_witness :
    fenceInv (GonkNativeWindow.new 480 854 7) ∧
    fenceInv (dequeue_buffer
      (GonkNativeWindow.mk 480 854 0 7 (-1) (-1) (some 0) (some 1) (-1) (-1))).2 ∧
    fenceInv (queue_buffer (fun _ _ => HwcResult.mk 0 0 (-1) 9)
      (GonkNativeWindow.mk 480 854 0 7 (-1) (-1) none (some 1) (-1) (-1)) 0 3).2.1 ∧
    fenceInv (cancel_buffer
      (GonkNativeWindow.mk 480 854 0 7 (-1) (-1) none (some 1) (-1) (-1)) 0 3).2.1 := by
  obtain ⟨h1, -, h3, h4, h5⟩ :=
    fence_inv_preserved (fun _ _ _ _ => AllocResult.mk 0 3 480)
      (fun _ _ => HwcResult.mk 0 0 (-1) 9) 480 854 7 3 0
      (GonkNativeWindow.mk 480 854 0 7 (-1) (-1) (some 0) (some 1) (-1) (-1))
      (GonkNativeWindow.mk 480 854 0 7 (-1) (-1) (some 0) (some 1) (-1) (-1))
  obtain ⟨-, -, -, h42, h52⟩ :=
    fence_inv_preserved (fun _ _ _ _ => AllocResult.mk 0 3 480)
      (fun _ _ => HwcResult.mk 0 0 (-1) 9) 480 854 7 3 0
      (GonkNativeWindow.mk 480 854 0 7 (-1) (-1) none (some 1) (-1) (-1))
      (GonkNativeWindow.mk 480 854 0 7 (-1) (-1) none (some 1) (-1) (-1))
  exact ⟨h1, h3 (by decide), h42 (by decide), h52 (by decide)⟩

/-- C10: failure atomicity. When `dequeue_buffer`, `queue_buffer` or
`cancel_buffer` fails (returns -1), the whole swap chain state — both slots,
both recorded fences, `last_idx` and every other field — is exactly as
before the call, and no fence is closed on the failure path (in particular
`cancel_buffer` does not close the passed fence when it fails). -/
theorem ops_fail_atomic (hwc : HwcFn) (w : GonkNativeWindow) (b : Nat) (f : Int) :
    ((dequeue_buffer w).1 = none → (dequeue_buffer w).2 = w) ∧
    ((queue_buffer hwc w b f).1 = none →
      (queue_buffer hwc w b f).2 = (w, ([] : List Int))) ∧
    ((cancel_buffer w b f).1 = none →
      (cancel_buffer w b f).2 = (w, ([] : List Int))) := by
  refine ⟨?_, ?_, ?_⟩
  · intro h
    unfold dequeue_buffer at h ⊢
    cases h0 : dequeueAt w 0 with
    | some rw0 =>
      obtain ⟨r, wn⟩ := rw0
      rw [h0] at h
      simp at h
    | none =>
      cases h1 : dequeueAt w 1 with
      | some rw1 =>
        obtain ⟨r, wn⟩ := rw1
        rw [h0] at h
        rw [h1] at h
        simp at h
      | none => rfl
  · intro h
    cases hb0 : w.bufs0 with
    | none => simp only [queue_buffer, hb0] at h; simp at h
    | some a0 =>
      cases hb1 : w.bufs1 with
      | none => simp only [queue_buffer, hb0, hb1] at h; simp at h
      | some a1 => simp only [queue_buffer, hb0, hb1]
  · intro h
    cases hb0 : w.bufs0 with
    | none => simp only [cancel_buffer, hb0] at h; simp at h
    | some a0 =>
      cases hb1 : w.bufs1 with
      | none => simp only [cancel_buffer, hb0, hb1] at h; simp at h
      | some a1 => simp only [cancel_buffer, hb0, hb1]

/-- Witness for C10: concrete failing calls — an acquire on a chain whose
only non-empty slot is the `last_idx` slot, and a submit and a release on a
full chain — leave the state untouched and close nothing. -/
theorem ops_fail_atomic_witness :
    (dequeue_buffer
        (GonkNativeWindow.mk 480 854 0 7 (-1) 0 (some 5) none (-1) (-1))).2 =
      GonkNativeWindow.mk 480 854 0 7 (-1) 0 (some 5) none (-1) (-1) ∧
    (queue_buffer (fun _ _ => HwcResult.mk 0 0 (-1) 9)
        (GonkNativeWindow.mk 480 854 0 7 (-1) 0 (some 5) (some 6) (-1) (-1)) 2 3).2 =
      (GonkNativeWindow.mk 480 854 0 7 (-1) 0 (some 5) (some 6) (-1) (-1),
       ([] : List Int)) ∧
    (cancel_buffer
        (GonkNativeWindow.mk 480 854 0 7 (-1) 0 (some 5) (some 6) (-1) (-1)) 2 3).2 =
      (GonkNativeWindow.mk 480 854 0 7 (-1) 0 (some 5) (some 6) (-1) (-1),
       ([] : List Int)) := by
  obtain ⟨h1, -, -⟩ :=
    ops_fail_atomic (fun _ _ => HwcResult.mk 0 0 (-1) 9)
      (GonkNativeWindow.mk 480 854 0 7 (-1) 0 (some 5) none (-1) (-1)) 2 3
  obtain ⟨-, h2, h3⟩ :=
    ops_fail_atomic (fun _ _ => HwcResult.mk 0 0 (-1) 9)
      (GonkNativeWindow.mk 480 854 0 7 (-1) 0 (some 5) (some 6) (-1) (-1)) 2 3
  exact ⟨h1 (by decide), h2 (by decide), h3 (by decide)⟩
